import Mathlib

/-!
Shallow embedding of `spotbot/Servo/servo_maestro.py` (Pololu Maestro servo
controller driver). Serial I/O is modelled by an explicit port state: a log of
written frames, a stream of input bytes (the bytes that will arrive before the
read timeout elapses), a write-failure flag, and an open flag. Python
exceptions are modelled with `Except`; since Python mutations performed before
a `raise` survive the exception, every method returns the state reached at the
point of the error as well.
-/

namespace Maestro

/-- Python-level exceptions raised by the driver. -/
inductive PyErr where
  /-- `TimeoutError` raised by `ServoController._read` (wanted vs got bytes). -/
  | timeoutError (wanted got : Nat)
  /-- `TypeError` from `ord(b'')` when a raw `port.read()` times out empty. -/
  | typeError
  /-- `AssertionError` (e.g. `_get_lsb_msb` value out of [0, 16383]). -/
  | assertionError
  /-- `IndexError` (e.g. `channels[0]` on an empty dict). -/
  | indexError
  /-- `UnboundLocalError`: a local variable referenced before assignment. -/
  | unboundLocalError
  /-- An exception from the serial transport write (port fault). -/
  | writeError
  /-- `MicroMaestroNotSupportedError`, carrying the attempted method's name. -/
  | microNotSupported (method : String)
  deriving DecidableEq

/-! ### `ServoController.SerialCommands` constants -/

def POLOLU_PROTOCOL : Nat := 0xAA
def DEFAULT_DEVICE_NUMBER : Nat := 0x0C
def SET_TARGET : Nat := 0x04
def SET_SPEED : Nat := 0x07
def SET_ACCELERATION : Nat := 0x09
def GET_POSITION : Nat := 0x10
def GET_ERRORS : Nat := 0x21
def GO_HOME : Nat := 0x22
def STOP_SCRIPT : Nat := 0x24
def GET_SCRIPT_STATUS : Nat := 0x2E
def SET_PWM : Nat := 0x0A
def GET_MOVING_STATE : Nat := 0x13
def SET_MULTIPLE_TARGETS : Nat := 0x1F

/-- The serial port: frames written so far, the bytes that will arrive before
the configured read timeout, whether writes fail, and whether it is open. -/
structure PortState where
  writes : List (List Nat)
  input : List Nat
  fail_writes : Bool
  is_open : Bool
  deriving DecidableEq

/-- State of a `ServoController` instance. `targets_us`, `min_targets_us` and
`max_targets_us` mirror the three 24-entry lists; `closed` mirrors `_closed`.
Python numbers (int/float) are modelled as rationals. -/
structure ServoController where
  is_micro : Bool
  device : Nat
  safe_close : Bool
  targets_us : Fin 24 → ℚ
  min_targets_us : Fin 24 → Option ℚ
  max_targets_us : Fin 24 → Option ℚ
  closed : Bool
  port : PortState

/-- `ServoController.__init__`: targets all 0, no min/max limits, not closed;
the port opens with an empty write log and the given pending input bytes. -/
def ServoController.init (is_micro : Bool) (device : Nat) (safe_close : Bool)
    (input : List Nat) (fail_writes : Bool) : ServoController where
  is_micro := is_micro
  device := device
  safe_close := safe_close
  targets_us := fun _ => 0
  min_targets_us := fun _ => none
  max_targets_us := fun _ => none
  closed := false
  port := { writes := [], input := input, fail_writes := fail_writes, is_open := true }

/-- Python's built-in `round`: round half to even (banker's rounding). -/
def py_round (q : ℚ) : Int :=
  let f := ⌊q⌋
  if q - f < 1/2 then f
  else if q - f > 1/2 then f + 1
  else if f % 2 = 0 then f else f + 1

/-- `_get_lsb_msb(value)`: asserts `0 <= value <= 16383`, then returns
`(value & 0x7F, (value >> 7) & 0x7F)`. -/
def get_lsb_msb (value : Int) : Except PyErr (Nat × Nat) :=
  if 0 ≤ value ∧ value ≤ 16383 then
    Except.ok (value.toNat &&& 0x7F, (value.toNat >>> 7) &&& 0x7F)
  else
    Except.error PyErr.assertionError

/-- `send_cmd(cmd)`: writes `self._pololu_cmd + cmd` (i.e. header byte, device
number, then the command bytes) to the port and flushes. A transport fault
raises before anything is recorded as written. -/
def send_cmd (s : ServoController) (cmd : List Nat) :
    Except PyErr Unit × ServoController :=
  if s.port.fail_writes then
    (Except.error PyErr.writeError, s)
  else
    (Except.ok (), { s with port :=
      { s.port with writes := s.port.writes ++ [POLOLU_PROTOCOL :: s.device :: cmd] } })

/-- `_read(byte_count)`: asserts `byte_count > 0`, reads up to `byte_count`
bytes, and raises `TimeoutError` when fewer arrived before the timeout. -/
def read_exact (s : ServoController) (byte_count : Nat) :
    Except PyErr (List Nat) × ServoController :=
  if byte_count = 0 then
    (Except.error PyErr.assertionError, s)
  else
    let data := s.port.input.take byte_count
    let s' := { s with port := { s.port with input := s.port.input.drop byte_count } }
    if data.length ≠ byte_count then
      (Except.error (PyErr.timeoutError byte_count data.length), s')
    else
      (Except.ok data, s')

/-- `set_range(channel, min_us, max_us)`: stores both bounds for the channel. -/
def set_range (s : ServoController) (channel : Fin 24) (min_us max_us : ℚ) :
    ServoController :=
  { s with
    min_targets_us := Function.update s.min_targets_us channel (some min_us)
    max_targets_us := Function.update s.max_targets_us channel (some max_us) }

/-- The clamping steps of `set_target` (its lines
`if min_target_us and target_us < min_target_us: ...` and
`if max_target_us and target_us > max_target_us: ...`). A bound participates
only when it is truthy, i.e. present and nonzero. -/
def clamp_target_us (s : ServoController) (channel : Fin 24) (target_us : ℚ) : ℚ :=
  let t1 := match s.min_targets_us channel with
    | some m => if m ≠ 0 ∧ target_us < m then m else target_us
    | none => target_us
  match s.max_targets_us channel with
  | some m => if m ≠ 0 ∧ t1 > m then m else t1
  | none => t1

/-- `set_target(channel, target)`: computes `target_us = target / 4`, clamps it
against the channel's truthy bounds, records the clamped value in
`targets_us[channel]`, then encodes the ORIGINAL `target` via `_get_lsb_msb`
and sends `[SET_TARGET, channel, lsb, msb]`. The record happens before the
encode and the send, exactly as in the source. -/
def set_target (s : ServoController) (channel : Fin 24) (target : Int) :
    Except PyErr Unit × ServoController :=
  let target_us := clamp_target_us s channel ((target : ℚ) / 4)
  let s1 := { s with targets_us := Function.update s.targets_us channel target_us }
  match get_lsb_msb target with
  | Except.error e => (Except.error e, s1)
  | Except.ok (lsb, msb) => send_cmd s1 [SET_TARGET, channel.val, lsb, msb]

/-- `set_target_us(channel, target_us)`: `target = int(round(4 * target_us))`,
then delegates to `set_target`. -/
def set_target_us (s : ServoController) (channel : Fin 24) (target_us : ℚ) :
    Except PyErr Unit × ServoController :=
  set_target s channel (py_round (4 * target_us))

/-- `stop_channel(channel)`: `set_target(channel, 0)`. -/
def stop_channel (s : ServoController) (channel : Fin 24) :
    Except PyErr Unit × ServoController :=
  set_target s channel 0

/-- `set_pwm(on_time_us, period_us)`: guarded by the
`_micro_maestro_not_supported` decorator, which raises (naming the method)
before the body runs when `is_micro` holds. Otherwise both durations are
scaled by 48, rounded, encoded, and one 5-byte-payload frame is sent. -/
def set_pwm (s : ServoController) (on_time_us period_us : ℚ) :
    Except PyErr Unit × ServoController :=
  if s.is_micro then
    (Except.error (PyErr.microNotSupported "set_pwm"), s)
  else
    match get_lsb_msb (py_round (48 * on_time_us)) with
    | Except.error e => (Except.error e, s)
    | Except.ok (on_lsb, on_msb) =>
      match get_lsb_msb (py_round (48 * period_us)) with
      | Except.error e => (Except.error e, s)
      | Except.ok (period_lsb, period_msb) =>
        send_cmd s [SET_PWM, on_lsb, on_msb, period_lsb, period_msb]

/-- `get_errors()`: sends `GET_ERRORS`, reads exactly 2 bytes via `_read`,
returns `data[0] << 8 | data[1]`. -/
def get_errors (s : ServoController) : Except PyErr Nat × ServoController :=
  match send_cmd s [GET_ERRORS] with
  | (Except.error e, s') => (Except.error e, s')
  | (Except.ok _, s') =>
    match read_exact s' 2 with
    | (Except.error e, s'') => (Except.error e, s'')
    | (Except.ok (b0 :: b1 :: _), s'') => (Except.ok ((b0 <<< 8) ||| b1), s'')
    | (Except.ok _, s'') => (Except.error PyErr.indexError, s'')

/-- `script_is_running()`: sends `GET_SCRIPT_STATUS`, reads 1 byte via
`_read`, returns `byte == 0`. -/
def script_is_running (s : ServoController) : Except PyErr Bool × ServoController :=
  match send_cmd s [GET_SCRIPT_STATUS] with
  | (Except.error e, s') => (Except.error e, s')
  | (Except.ok _, s') =>
    match read_exact s' 1 with
    | (Except.error e, s'') => (Except.error e, s'')
    | (Except.ok (b :: _), s'') => (Except.ok (decide (b = 0)), s'')
    | (Except.ok [], s'') => (Except.error PyErr.indexError, s'')

/-- `ord(self._port.read())`: a raw single-byte read with no length check.
When no byte arrives before the timeout, `port.read()` returns an empty bytes
object and `ord` raises `TypeError` (not `TimeoutError`). -/
def ord_port_read (s : ServoController) : Except PyErr Nat × ServoController :=
  match s.port.input with
  | [] => (Except.error PyErr.typeError, s)
  | b :: rest => (Except.ok b, { s with port := { s.port with input := rest } })

/-- `get_position(chan)`: sends `GET_POSITION` with the channel byte, then
performs two raw `ord(port.read())` reads and returns `(msb << 8) | lsb`. -/
def get_position (s : ServoController) (chan : Fin 24) :
    Except PyErr Nat × ServoController :=
  match send_cmd s [GET_POSITION, chan.val] with
  | (Except.error e, s') => (Except.error e, s')
  | (Except.ok _, s') =>
    match ord_port_read s' with
    | (Except.error e, s'') => (Except.error e, s'')
    | (Except.ok lsb, s'') =>
      match ord_port_read s'' with
      | (Except.error e, s3) => (Except.error e, s3)
      | (Except.ok msb, s3) => (Except.ok ((msb <<< 8) ||| lsb), s3)

/-- `get_position_us(chan)`: `get_position(chan) / 4`. -/
def get_position_us (s : ServoController) (chan : Fin 24) :
    Except PyErr ℚ × ServoController :=
  match get_position s chan with
  | (Except.error e, s') => (Except.error e, s')
  | (Except.ok p, s') => (Except.ok ((p : ℚ) / 4), s')

/-- `is_moving(channel)`: returns `target_us and abs(target_us -
get_position_us(channel)) < 0.01`. A falsy (zero) recorded target
short-circuits the `and`, so no query is issued and the result is falsy;
otherwise the result is true exactly when the recorded target is within 0.01
of the read-back position. -/
def is_moving (s : ServoController) (channel : Fin 24) :
    Except PyErr Bool × ServoController :=
  let target_us := s.targets_us channel
  if target_us = 0 then
    (Except.ok false, s)
  else
    match get_position_us s channel with
    | (Except.error e, s') => (Except.error e, s')
    | (Except.ok pos, s') => (Except.ok (decide (|target_us - pos| < 1/100)), s')

/-- `servos_are_moving()`: guarded by the micro decorator; otherwise sends
`GET_MOVING_STATE`, reads 1 byte via `_read`, returns `byte == 1`. -/
def servos_are_moving (s : ServoController) : Except PyErr Bool × ServoController :=
  if s.is_micro then
    (Except.error (PyErr.microNotSupported "servos_are_moving"), s)
  else
    match send_cmd s [GET_MOVING_STATE] with
    | (Except.error e, s') => (Except.error e, s')
    | (Except.ok _, s') =>
      match read_exact s' 1 with
      | (Except.error e, s'') => (Except.error e, s'')
      | (Except.ok (b :: _), s'') => (Except.ok (decide (b = 1)), s'')
      | (Except.ok [], s'') => (Except.error PyErr.indexError, s'')

/-- The Micro-Maestro branch of `set_targets_us`: one `set_target_us` call per
mapping entry, in the dict's iteration order, stopping at the first raise. -/
def set_each_target_us :
    List (Fin 24 × ℚ) → ServoController → Except PyErr Unit × ServoController
  | [], s => (Except.ok (), s)
  | (channel, target_us) :: rest, s =>
    match set_target_us s channel target_us with
    | (Except.ok _, s') => set_each_target_us rest s'
    | (Except.error e, s') => (Except.error e, s')

/-- `set_targets_us(targets_us)`. The mapping is modelled as an association
list in dict insertion order with distinct keys.

On a Micro Maestro the method loops `set_target_us` over the entries. On every
other model the body first evaluates `channels = sorted(targets_us.keys())`
and `prev_channel = first_channel = channels[0]` (an `IndexError` when the
mapping is empty) and `target = targets_us[first_channel]` — none of which
touches the port — and then executes
`target_blocks = {first_channel: [target_us]}`. That line reads the local
variable `target_us`, which in this branch has not been assigned yet (it is
only assigned by the later loops or by the Micro branch), so the method
raises `UnboundLocalError` before any frame is built or sent. -/
def set_targets_us (s : ServoController) (targets_us : List (Fin 24 × ℚ)) :
    Except PyErr Unit × ServoController :=
  if s.is_micro then
    set_each_target_us targets_us s
  else
    match targets_us with
    | [] => (Except.error PyErr.indexError, s)
    | _ :: _ => (Except.error PyErr.unboundLocalError, s)

/-- The `for channel in range(24): self.stop_channel(channel)` loop of
`close`, stopping at the first raise. -/
def stop_channels :
    List (Fin 24) → ServoController → Except PyErr Unit × ServoController
  | [], s => (Except.ok (), s)
  | c :: rest, s =>
    match stop_channel s c with
    | (Except.ok _, s') => stop_channels rest s'
    | (Except.error e, s') => (Except.error e, s')

/-- `close()`: returns at once when `_closed` is already set; otherwise, when
`safe_close` holds, stops all 24 channels, then closes the port and sets
`_closed`. An exception in the stop pass propagates before the port is
released, as in the source. -/
def close (s : ServoController) : Except PyErr Unit × ServoController :=
  if s.closed then
    (Except.ok (), s)
  else
    match (if s.safe_close then stop_channels (List.finRange 24) s else (Except.ok (), s)) with
    | (Except.error e, s1) => (Except.error e, s1)
    | (Except.ok _, s1) =>
      (Except.ok (), { s1 with
        closed := true
        port := { s1.port with is_open := false } })

/-! ### Concrete controller states used in the theorems below -/

/-- A freshly constructed full-capability controller on a healthy port. -/
def ctrl0 : ServoController := ServoController.init false 12 true [] false

/-- `ctrl0` after `set_range(0, 1000, 2000)`. -/
def ctrl_ranged : ServoController := set_range ctrl0 0 1000 2000

/-- A full-capability controller whose transport writes fail. -/
def ctrl_failing : ServoController := ServoController.init false 12 true [] true

/-- A freshly constructed Micro Maestro controller. -/
def ctrl_micro : ServoController := ServoController.init true 12 true [] false

/-- A controller whose port will deliver only one byte before the timeout. -/
def ctrl_one_byte : ServoController := ServoController.init false 12 true [160] false

/-- A controller whose port will deliver one byte (value 7) before timeout. -/
def ctrl_one_byte7 : ServoController := ServoController.init false 12 true [7] false

/-- `ctrl0` after `set_target_us(0, 1500)` (recorded target 1500 µs). -/
def ctrl_commanded : ServoController := (set_target_us ctrl0 0 1500).2

/-- `ctrl_commanded` with a pending position response of 4000 quarter-µs
(bytes lsb 160, msb 15), i.e. a read-back position of 1000 µs. -/
def ctrl_far : ServoController :=
  { ctrl_commanded with port := { ctrl_commanded.port with input := [160, 15] } }

/-- `ctrl_commanded` with a pending position response of 6000 quarter-µs
(bytes lsb 112, msb 23), i.e. a read-back position of 1500 µs. -/
def ctrl_near : ServoController :=
  { ctrl_commanded with port := { ctrl_commanded.port with input := [112, 23] } }

/-- The batch request of channels {0, 1, 2, 5, 6}. -/
def batch_request : List (Fin 24 × ℚ) :=
  [(0, 1500), (1, 1500), (2, 1500), (5, 1500), (6, 1500)]

/-! ### Theorems -/

/-- Decode identity for the 7-bit pair produced by `get_lsb_msb`. -/
theorem lsb_msb_decode (n : Nat) (h : n ≤ 16383) :
    (((n >>> 7) &&& 127) <<< 7) ||| (n &&& 127) = n := by
  have h1 : n &&& 127 = n % 128 := by
    have h127 := Nat.and_pow_two_sub_one_eq_mod n 7
    norm_num at h127
    exact h127
  have h2 : n >>> 7 = n / 128 := by
    rw [Nat.shiftRight_eq_div_pow]
  have h3 : (n / 128) &&& 127 = n / 128 := by
    have h127 := Nat.and_pow_two_sub_one_eq_mod (n / 128) 7
    norm_num at h127
    rw [h127]
    omega
  have h4 : (n / 128) <<< 7 = 2 ^ 7 * (n / 128) := by
    rw [Nat.shiftLeft_eq]
    ring
  rw [h1, h2, h3, h4]
  rw [← Nat.mul_add_lt_is_or (b := n % 128) (i := 7) (by omega) (n / 128)]
  omega

/-- C9: for every integer v in [0, 16383] the encoder returns a pair
(lsb, msb) with (msb <<< 7) ||| lsb recovering v, and for any v outside that
range it fails with the out-of-range assertion instead of producing a pair. -/
theorem C9_encoder_roundtrip (v : Int) :
    (0 ≤ v ∧ v ≤ 16383 →
      ∃ lsb msb, get_lsb_msb v = Except.ok (lsb, msb) ∧ (msb <<< 7) ||| lsb = v.toNat) ∧
    (¬(0 ≤ v ∧ v ≤ 16383) → get_lsb_msb v = Except.error PyErr.assertionError) := by
  constructor
  · intro h
    refine ⟨v.toNat &&& 0x7F, (v.toNat >>> 7) &&& 0x7F, ?_, ?_⟩
    · simp [get_lsb_msb, h]
    · exact lsb_msb_decode v.toNat (by omega)
  · intro h
    simp [get_lsb_msb, h]

/-- Witness for C9 at v = 2000 (in range) and v = 20000 (out of range). -/
theorem C9_encoder_roundtrip_witness :
    (∃ lsb msb, get_lsb_msb 2000 = Except.ok (lsb, msb) ∧
      (msb <<< 7) ||| lsb = (2000 : Int).toNat) ∧
    get_lsb_msb 20000 = Except.error PyErr.assertionError :=
  ⟨(C9_encoder_roundtrip 2000).1 (by decide), (C9_encoder_roundtrip 20000).2 (by decide)⟩

/-- C1: the claim says the transmitted SET_TARGET payload carries the
clamp-resolved effective value re-encoded into quarter-microseconds. The code
violates this: with range [1000, 2000] µs on channel 0, `set_target(0, 2000)`
records the clamped 1000 µs, yet the frame written to the port encodes the
caller's raw 2000 quarter-µs (bytes 80, 15) and not the resolved
4 × 1000 = 4000 quarter-µs (bytes 32, 31). -/
theorem C1_transmits_unclamped_target :
    (set_target ctrl_ranged 0 2000).2.targets_us 0 = 1000 ∧
    (set_target ctrl_ranged 0 2000).2.port.writes =
      [[POLOLU_PROTOCOL, 12, SET_TARGET, 0, 80, 15]] ∧
    get_lsb_msb (4 * 1000) = Except.ok (32, 31) ∧
    (80, 15) ≠ ((32 : Nat), (31 : Nat)) := by
  have hmin : ctrl_ranged.min_targets_us 0 = some 1000 := by
    simp [ctrl_ranged, ctrl0, set_range, ServoController.init]
  have hmax : ctrl_ranged.max_targets_us 0 = some 2000 := by
    simp [ctrl_ranged, ctrl0, set_range, ServoController.init]
  have henc : get_lsb_msb 2000 = Except.ok (80, 15) := by
    norm_num [get_lsb_msb]
    decide
  have henc2 : get_lsb_msb (4 * 1000) = Except.ok (32, 31) := by
    norm_num [get_lsb_msb]
    decide
  refine ⟨?_, ?_, henc2, by decide⟩
  · norm_num [set_target, clamp_target_us, hmin, hmax, henc, send_cmd,
      ctrl_ranged, ctrl0, set_range, ServoController.init, Function.update_same]
  · norm_num [set_target, clamp_target_us, hmin, hmax, henc, send_cmd,
      ctrl_ranged, ctrl0, set_range, ServoController.init]

/-- C2: the claim says the batch request {0,1,2,5,6} on a full-capability
controller transmits exactly two SET_MULTIPLE_TARGETS frames with per-channel
clamping. The code instead raises UnboundLocalError (its non-Micro branch
reads the local `target_us` before any assignment) and writes no frame. -/
theorem C2_batch_raises_unbound_local :
    set_targets_us ctrl0 batch_request = (Except.error PyErr.unboundLocalError, ctrl0) ∧
    ctrl0.port.writes = [] :=
  ⟨rfl, rfl⟩

/-- C5: the claim says every query failing to receive its expected response
bytes fails with a timeout error. `get_errors` (and the other `_read`-based
queries) does, but `get_position` performs raw `ord(port.read())` reads: when
only 1 of its 2 expected bytes arrives, it raises TypeError (from `ord` of an
empty read), contradicting its own docstring ":raises TimeoutError:". Neither
path returns a partial value. -/
theorem C5_get_position_short_read_type_error :
    (get_position ctrl_one_byte 0).1 = Except.error PyErr.typeError ∧
    (get_errors ctrl_one_byte7).1 = Except.error (PyErr.timeoutError 2 1) :=
  ⟨rfl, rfl⟩

/-- C3 counterexample: the claim says that after `set_range(c, 1000, 2000)`,
`stop_channel(c)` records a last-known target of 0. On `ctrl_ranged` (range
[1000, 2000] on channel 0) the code records 1000, not 0. -/
theorem C3_counterexample_stop_records_min :
    (stop_channel ctrl_ranged 0).2.targets_us 0 = 1000 ∧ (1000 : ℚ) ≠ 0 := by
  have hmin : ctrl_ranged.min_targets_us 0 = some 1000 := by
    simp [ctrl_ranged, ctrl0, set_range, ServoController.init]
  have hmax : ctrl_ranged.max_targets_us 0 = some 2000 := by
    simp [ctrl_ranged, ctrl0, set_range, ServoController.init]
  constructor
  · norm_num [stop_channel, set_target, clamp_target_us, hmin, hmax, send_cmd,
      get_lsb_msb, ctrl_ranged, ctrl0, set_range, ServoController.init,
      Function.update_same]
  · norm_num

/-- C3 amended: with min 1000 µs and max 2000 µs set on a channel, a healthy
transport given, `stop_channel` records 1000 µs — the stop request's recorded
value passes through the ordinary clamping, with no stop-sentinel bypass —
while the transmitted frame still encodes the raw 0. -/
theorem C3_stop_clamped_to_min (s : ServoController) (c : Fin 24)
    (hmin : s.min_targets_us c = some 1000) (hmax : s.max_targets_us c = some 2000)
    (hw : s.port.fail_writes = false) :
    (stop_channel s c).1 = Except.ok () ∧
    (stop_channel s c).2.targets_us c = 1000 ∧
    (stop_channel s c).2.port.writes =
      s.port.writes ++ [[POLOLU_PROTOCOL, s.device, SET_TARGET, c.val, 0, 0]] := by
  refine ⟨?_, ?_, ?_⟩ <;>
    norm_num [stop_channel, set_target, clamp_target_us, hmin, hmax, hw,
      send_cmd, get_lsb_msb, Function.update_same]

/-- Witness for the amended C3 at `ctrl_ranged`, channel 0. -/
theorem C3_stop_clamped_to_min_witness :
    (stop_channel ctrl_ranged 0).1 = Except.ok () ∧
    (stop_channel ctrl_ranged 0).2.targets_us 0 = 1000 ∧
    (stop_channel ctrl_ranged 0).2.port.writes =
      ctrl_ranged.port.writes ++
        [[POLOLU_PROTOCOL, ctrl_ranged.device, SET_TARGET, (0 : Fin 24).val, 0, 0]] :=
  C3_stop_clamped_to_min ctrl_ranged 0 rfl rfl rfl

/-- C4 counterexample: the claim says the stored target is unchanged when the
transport write fails. On a controller with a failing port and prior target 0
for channel 0, `set_target(0, 6000)` raises from the write, yet the stored
target for channel 0 has already changed to 1500 µs. -/
theorem C4_counterexample_state_changed_on_error :
    ctrl_failing.targets_us 0 = 0 ∧
    (set_target ctrl_failing 0 6000).1 = Except.error PyErr.writeError ∧
    (set_target ctrl_failing 0 6000).2.targets_us 0 = 1500 := by
  refine ⟨rfl, ?_, ?_⟩
  · norm_num [set_target, clamp_target_us, send_cmd, get_lsb_msb,
      ctrl_failing, ServoController.init]
  · norm_num [set_target, clamp_target_us, send_cmd, get_lsb_msb,
      ctrl_failing, ServoController.init, Function.update_same]

/-- C4 amended: `set_target` records the clamp-resolved value into the store
BEFORE issuing the send, so when the transport write fails the call raises
and the store already holds the new resolved value (not the prior one). -/
theorem C4_record_precedes_send (s : ServoController) (c : Fin 24) (t : Int)
    (hw : s.port.fail_writes = true) (ht : 0 ≤ t ∧ t ≤ 16383) :
    (set_target s c t).1 = Except.error PyErr.writeError ∧
    (set_target s c t).2.targets_us c = clamp_target_us s c ((t : ℚ) / 4) := by
  constructor <;>
    simp [set_target, get_lsb_msb, ht, send_cmd, hw, Function.update_same]

/-- Witness for the amended C4 at `ctrl_failing`, channel 0, target 6000. -/
theorem C4_record_precedes_send_witness :
    (set_target ctrl_failing 0 6000).1 = Except.error PyErr.writeError ∧
    (set_target ctrl_failing 0 6000).2.targets_us 0 =
      clamp_target_us ctrl_failing 0 ((6000 : Int) / 4 : ℚ) :=
  C4_record_precedes_send ctrl_failing 0 6000 rfl (by decide)

/-- C8: on a Micro Maestro, `set_pwm` and `servos_are_moving` fail with the
unsupported-on-variant error naming the attempted method, the state is
untouched, and zero bytes are written to the transport. -/
theorem C8_capability_gate (s : ServoController) (h : s.is_micro = true)
    (on_time_us period_us : ℚ) :
    set_pwm s on_time_us period_us =
      (Except.error (PyErr.microNotSupported "set_pwm"), s) ∧
    servos_are_moving s =
      (Except.error (PyErr.microNotSupported "servos_are_moving"), s) ∧
    (set_pwm s on_time_us period_us).2.port.writes = s.port.writes ∧
    (servos_are_moving s).2.port.writes = s.port.writes := by
  refine ⟨?_, ?_, ?_, ?_⟩ <;> simp [set_pwm, servos_are_moving, h]

/-- Witness for C8 at a concrete Micro Maestro state. -/
theorem C8_capability_gate_witness :
    set_pwm ctrl_micro 1500 20000 =
      (Except.error (PyErr.microNotSupported "set_pwm"), ctrl_micro) ∧
    servos_are_moving ctrl_micro =
      (Except.error (PyErr.microNotSupported "servos_are_moving"), ctrl_micro) ∧
    (set_pwm ctrl_micro 1500 20000).2.port.writes = ctrl_micro.port.writes ∧
    (servos_are_moving ctrl_micro).2.port.writes = ctrl_micro.port.writes :=
  C8_capability_gate ctrl_micro rfl 1500 20000

/-- C10: after `set_range(c, 0, 0)` both stored bounds are 0, which is falsy
to the clamping logic exactly like an absent bound, so a subsequent
`set_target(c, t)` records t/4 unchanged on either side and transmits the
encoding of t. -/
theorem C10_zero_bounds_no_clamping (s : ServoController) (c : Fin 24) (t : Int)
    (ht : 0 ≤ t ∧ t ≤ 16383) (hw : s.port.fail_writes = false) :
    (set_target (set_range s c 0 0) c t).1 = Except.ok () ∧
    (set_target (set_range s c 0 0) c t).2.targets_us c = (t : ℚ) / 4 ∧
    ∃ lsb msb, get_lsb_msb t = Except.ok (lsb, msb) ∧
      (set_target (set_range s c 0 0) c t).2.port.writes =
        s.port.writes ++ [[POLOLU_PROTOCOL, s.device, SET_TARGET, c.val, lsb, msb]] := by
  refine ⟨?_, ?_, t.toNat &&& 0x7F, (t.toNat >>> 7) &&& 0x7F, ?_, ?_⟩ <;>
    simp [set_target, set_range, clamp_target_us, get_lsb_msb, ht, send_cmd, hw,
      Function.update_same]

/-- The recorded target of `ctrl_commanded` on channel 0 is 1500 µs. -/
theorem ctrl_commanded_target : ctrl_commanded.targets_us 0 = 1500 := by
  norm_num [ctrl_commanded, ctrl0, ServoController.init, set_target_us, set_target,
    py_round, clamp_target_us, send_cmd, get_lsb_msb, Function.update_same]

/-- The port of `ctrl_commanded` still has working writes. -/
theorem ctrl_commanded_fw : ctrl_commanded.port.fail_writes = false := by
  norm_num [ctrl_commanded, ctrl0, ServoController.init, set_target_us, set_target,
    py_round, clamp_target_us, send_cmd, get_lsb_msb]

/-- C6: the claim says `is_moving(channel)` is true only when the recorded
target differs from the read-back position by MORE than 0.01 µs. The code
returns `target_us and abs(target_us - position_us) < 0.01`, the opposite
comparison: with recorded target 1500 µs and read-back position 1000 µs
(differing by 500 µs) it returns false, and with the position equal to the
target it returns true. Its own docstring note ("the target can never be
reached, so it will appear to always be moving") requires the claimed
direction, so the code's comparison is an inverted slip. Only the
never-commanded case agrees with the claim (false, by the falsy
short-circuit). -/
theorem C6_is_moving_comparison_inverted :
    ctrl_far.targets_us 0 = 1500 ∧
    (get_position_us ctrl_far 0).1 = Except.ok 1000 ∧
    (is_moving ctrl_far 0).1 = Except.ok false ∧
    (get_position_us ctrl_near 0).1 = Except.ok 1500 ∧
    (is_moving ctrl_near 0).1 = Except.ok true ∧
    (is_moving ctrl0 0).1 = Except.ok false := by
  have h1 : ctrl_far.targets_us 0 = 1500 := by
    simp [ctrl_far]
    exact ctrl_commanded_target
  have h1n : ctrl_near.targets_us 0 = 1500 := by
    simp [ctrl_near]
    exact ctrl_commanded_target
  have h2 : ctrl_far.port.fail_writes = false := by
    simp [ctrl_far]
    exact ctrl_commanded_fw
  have h2n : ctrl_near.port.fail_writes = false := by
    simp [ctrl_near]
    exact ctrl_commanded_fw
  have h3 : ctrl_far.port.input = [160, 15] := by simp [ctrl_far]
  have h3n : ctrl_near.port.input = [112, 23] := by simp [ctrl_near]
  have h4 : (15 <<< 8 ||| 160 : Nat) = 4000 := by decide
  have h4n : (23 <<< 8 ||| 112 : Nat) = 6000 := by decide
  refine ⟨h1, ?_, ?_, ?_, ?_, ?_⟩
  · norm_num [get_position_us, get_position, ord_port_read, send_cmd, h2, h3, h4]
  · norm_num [is_moving, get_position_us, get_position, ord_port_read, send_cmd,
      h1, h2, h3, h4, decide_eq_false_iff_not]
  · norm_num [get_position_us, get_position, ord_port_read, send_cmd, h2n, h3n, h4n]
  · norm_num [is_moving, get_position_us, get_position, ord_port_read, send_cmd,
      h1n, h2n, h3n, h4n, decide_eq_true_eq]
  · norm_num [is_moving, ctrl0, ServoController.init]

/-- Witness for C10 at `ctrl0`, channel 0, target 2 (recorded 1/2 µs). -/
theorem C10_zero_bounds_no_clamping_witness :
    (set_target (set_range ctrl0 0 0 0) 0 2).1 = Except.ok () ∧
    (set_target (set_range ctrl0 0 0 0) 0 2).2.targets_us 0 = ((2 : Int) : ℚ) / 4 ∧
    ∃ lsb msb, get_lsb_msb 2 = Except.ok (lsb, msb) ∧
      (set_target (set_range ctrl0 0 0 0) 0 2).2.port.writes =
        ctrl0.port.writes ++
          [[POLOLU_PROTOCOL, ctrl0.device, SET_TARGET, (0 : Fin 24).val, lsb, msb]] :=
  C10_zero_bounds_no_clamping ctrl0 0 2 (by decide) rfl

/-- On a healthy port, `stop_channel` succeeds, records the clamp of 0, and
writes exactly one SET_TARGET frame with payload bytes (0, 0). -/
theorem stop_channel_spec (s : ServoController) (c : Fin 24)
    (hw : s.port.fail_writes = false) :
    stop_channel s c =
      (Except.ok (), { s with
        targets_us := Function.update s.targets_us c (clamp_target_us s c 0),
        port := { s.port with
          writes := s.port.writes ++
            [[POLOLU_PROTOCOL, s.device, SET_TARGET, c.val, 0, 0]] } }) := by
  have h0 : ((0 : Int) : ℚ) / 4 = 0 := by norm_num
  norm_num [stop_channel, set_target, get_lsb_msb, send_cmd, hw, h0]

/-- On a healthy port, the stop loop over a channel list succeeds, appends one
stop frame per channel in order, and leaves the port flags, `closed` and
`device` unchanged. -/
theorem stop_channels_spec (l : List (Fin 24)) (s : ServoController)
    (hw : s.port.fail_writes = false) :
    ∃ s1, stop_channels l s = (Except.ok (), s1) ∧
      s1.port.writes = s.port.writes ++
        l.map (fun c => [POLOLU_PROTOCOL, s.device, SET_TARGET, c.val, 0, 0]) ∧
      s1.port.fail_writes = false ∧
      s1.port.is_open = s.port.is_open ∧
      s1.closed = s.closed ∧
      s1.device = s.device := by
  induction l generalizing s with
  | nil => exact ⟨s, rfl, by simp, hw, rfl, rfl, rfl⟩
  | cons c rest ih =>
    obtain ⟨s1, heq, hwr, hfw, hio, hcl, hdev⟩ :=
      ih { s with
        targets_us := Function.update s.targets_us c (clamp_target_us s c 0),
        port := { s.port with
          writes := s.port.writes ++
            [[POLOLU_PROTOCOL, s.device, SET_TARGET, c.val, 0, 0]] } } (by simp [hw])
    refine ⟨s1, ?_, ?_, hfw, by simpa using hio, by simpa using hcl, by simpa using hdev⟩
    · simp only [stop_channels, stop_channel_spec s c hw]
      exact heq
    · rw [hwr]
      simp [List.append_assoc]

/-- C7: on an open controller with `safe_close` set and a healthy port, the
first `close` performs the safe-stop pass exactly once (one stop frame per
each of the 24 channels, in order) and releases the transport, and the second
`close` call returns the very same state with no further frame and no state
change. -/
theorem C7_close_idempotent (s : ServoController)
    (hc : s.closed = false) (hs : s.safe_close = true)
    (hw : s.port.fail_writes = false) :
    (close s).1 = Except.ok () ∧
    (close s).2.closed = true ∧
    (close s).2.port.is_open = false ∧
    (close s).2.port.writes = s.port.writes ++
      (List.finRange 24).map (fun c => [POLOLU_PROTOCOL, s.device, SET_TARGET, c.val, 0, 0]) ∧
    close (close s).2 = (Except.ok (), (close s).2) := by
  obtain ⟨s1, heq, hwr, hfw, hio, hcl, hdev⟩ :=
    stop_channels_spec (List.finRange 24) s hw
  have hclose : close s = (Except.ok (), { s1 with
      closed := true, port := { s1.port with is_open := false } }) := by
    simp [close, hc, hs, heq]
  rw [hclose]
  refine ⟨rfl, rfl, rfl, ?_, ?_⟩
  · simpa using hwr
  · simp [close]

/-- Witness for C7 at the freshly constructed `ctrl0`. -/
theorem C7_close_idempotent_witness :
    (close ctrl0).1 = Except.ok () ∧
    (close ctrl0).2.closed = true ∧
    (close ctrl0).2.port.is_open = false ∧
    (close ctrl0).2.port.writes = ctrl0.port.writes ++
      (List.finRange 24).map (fun c => [POLOLU_PROTOCOL, ctrl0.device, SET_TARGET, c.val, 0, 0]) ∧
    close (close ctrl0).2 = (Except.ok (), (close ctrl0).2) :=
  C7_close_idempotent ctrl0 rfl rfl rfl

end Maestro
